import Mathlib

/- Shallow embedding of the load-generation and measurement harness under
src/data-gather: the MQTT, CoAP and HTTP senders and receivers and the report
aggregator (test_aggregator.py). Python float arithmetic over
nanosecond-integer timestamps is modelled over the rationals; Python int() is
truncation toward zero; fields touched by the modelled methods are carried in
explicit state structures. -/

/-- Sender report data as loaded by TestAggregator.load_reports: fields
total_sent and timestamps (nanosecond integers). -/
structure SenderData where
  total_sent : ℕ
  timestamps : List ℤ

/-- Receiver report data as loaded by TestAggregator.load_reports: fields
total_received and timestamps. -/
structure ReceiverData where
  total_received : ℕ
  timestamps : List ℤ

/-- Python statistics.mean with the aggregator guard: 0 on an empty list
(test_aggregator.py line 61). -/
def pyMean (l : List ℚ) : ℚ :=
  match l with
  | [] => 0
  | _ :: _ => l.sum / (l.length : ℚ)

/-- Python min over a list with the aggregator guard: 0 on an empty list
(test_aggregator.py line 62). -/
def pyMin (l : List ℚ) : ℚ :=
  match l with
  | [] => 0
  | x :: xs => xs.foldl min x

/-- Python max over a list with the aggregator guard: 0 on an empty list
(test_aggregator.py line 63). -/
def pyMax (l : List ℚ) : ℚ :=
  match l with
  | [] => 0
  | x :: xs => xs.foldl max x

/-- Python statistics.median with the aggregator guard: 0 on an empty list
(test_aggregator.py line 64): sort ascending, take the middle element, or the
mean of the two middle elements when the length is even. -/
def pyMedian (l : List ℚ) : ℚ :=
  match l with
  | [] => 0
  | _ :: _ =>
    let s := List.insertionSort (fun a b => a ≤ b) l
    if s.length % 2 = 1 then s.getD (s.length / 2) 0
    else (s.getD (s.length / 2 - 1) 0 + s.getD (s.length / 2) 0) / 2

/-- TestAggregator.calculate_metrics packet-loss computation
(test_aggregator.py lines 26-29): (total_sent - total_received) / total_sent
* 100, and 0 when total_sent is 0. -/
def packet_loss (total_sent total_received : ℕ) : ℚ :=
  if 0 < total_sent then
    (((total_sent : ℚ) - (total_received : ℚ)) / (total_sent : ℚ)) * 100
  else 0

/-- TestAggregator.calculate_metrics transfer-speed computation
(test_aggregator.py lines 32-43): total_sent over the elapsed seconds between
the first and last sender timestamps, 0 with fewer than two timestamps or a
nonpositive duration. -/
def transfer_speed (total_sent : ℕ) (senderTs : List ℤ) : ℚ :=
  if 2 ≤ senderTs.length then
    let duration_s : ℚ := ((senderTs.getLastD 0 - senderTs.headD 0 : ℤ) : ℚ) / 1000000000
    if 0 < duration_s then (total_sent : ℚ) / duration_s else 0
  else 0

/-- TestAggregator.calculate_metrics latency loop (test_aggregator.py lines
46-53): only when total_received > 0 and the sender list holds at least
total_received timestamps, pair positionally over
range(min(total_received, len(receiver_timestamps))), appending
(receiver_ts[i] - sender_ts[i]) / 1e6 whenever i is inside the sender list. -/
def latencySeries (sd : SenderData) (rd : ReceiverData) : List ℚ :=
  if 0 < rd.total_received ∧ rd.total_received ≤ sd.timestamps.length then
    (List.range (min rd.total_received rd.timestamps.length)).filterMap (fun i =>
      if i < sd.timestamps.length then
        some ((((rd.timestamps.getD i 0 : ℤ) : ℚ) - ((sd.timestamps.getD i 0 : ℤ) : ℚ)) / 1000000)
      else none)
  else []

/-- The metrics dictionary built by TestAggregator.calculate_metrics
(test_aggregator.py lines 55-65). -/
structure Metrics where
  total_sent : ℕ
  total_received : ℕ
  packet_loss_percent : ℚ
  transfer_speed_msgs_per_sec : ℚ
  latencies_ms : List ℚ
  avg_latency_ms : ℚ
  min_latency_ms : ℚ
  max_latency_ms : ℚ
  median_latency_ms : ℚ

/-- TestAggregator.calculate_metrics (test_aggregator.py lines 20-67). -/
def calculate_metrics (sd : SenderData) (rd : ReceiverData) : Metrics :=
  { total_sent := sd.total_sent
    total_received := rd.total_received
    packet_loss_percent := packet_loss sd.total_sent rd.total_received
    transfer_speed_msgs_per_sec := transfer_speed sd.total_sent sd.timestamps
    latencies_ms := latencySeries sd rd
    avg_latency_ms := pyMean (latencySeries sd rd)
    min_latency_ms := pyMin (latencySeries sd rd)
    max_latency_ms := pyMax (latencySeries sd rd)
    median_latency_ms := pyMedian (latencySeries sd rd) }

/-- MqttReceiver.generate_report average-rate computation (mqtt_receiver.py
lines 60-67, identical in every engine): elapsed seconds from the first and
last timestamps when there are at least two, and the count over that elapsed
time when it is positive, else 0. -/
def generate_report_rate (total : ℕ) (timestamps : List ℤ) : ℚ :=
  let time_elapsed : ℚ :=
    if 2 ≤ timestamps.length then
      ((timestamps.getLastD 0 - timestamps.headD 0 : ℤ) : ℚ) / 1000000000
    else 0
  if 0 < time_elapsed then (total : ℚ) / time_elapsed else 0

/-- Python int() truncation toward zero on a rational value. -/
def pyInt (q : ℚ) : ℤ := if 0 ≤ q then ⌊q⌋ else ⌈q⌉

/-- MqttSender.run derived message count (mqtt_sender.py lines 134-136): when
rate > 0 and duration > 0, message_count becomes
int(rate * duration * concurrency), else the configured count stands. -/
def mqttSender_run_count (rate : ℚ) (duration concurrency : ℕ) (message_count : ℤ) : ℤ :=
  if 0 < rate ∧ 0 < duration then pyInt (rate * (duration : ℚ) * (concurrency : ℚ))
  else message_count

/-- CoapSender.run derived message count (coap_sender.py lines 134-135). -/
def coapSender_run_count (rate : ℚ) (duration concurrency : ℕ) (message_count : ℤ) : ℤ :=
  if 0 < rate ∧ 0 < duration then pyInt (rate * (duration : ℚ) * (concurrency : ℚ))
  else message_count

/-- AsyncHttpSender.run derived message count (http/http_test_sender.py lines
88-90): message_count becomes int(rate * duration); concurrency is not a
factor. -/
def httpSender_run_count (rate : ℚ) (duration : ℕ) (message_count : ℤ) : ℤ :=
  if 0 < rate ∧ 0 < duration then pyInt (rate * (duration : ℚ))
  else message_count

/-- MqttSender.run duration-watchdog arming condition (mqtt_sender.py line
143), evaluated after the derived count: the run sleeps for the duration and
stops only when duration > 0 and (rate == 0 or message_count == 0). -/
def mqttSender_run_watchdog (rate : ℚ) (duration concurrency : ℕ) (message_count : ℤ) : Bool :=
  let mc := mqttSender_run_count rate duration concurrency message_count
  decide (0 < duration) && (decide (rate = 0) || decide (mc = 0))

/-- CoapSender.run duration-watchdog arming condition (coap_sender.py line
141). -/
def coapSender_run_watchdog (rate : ℚ) (duration concurrency : ℕ) (message_count : ℤ) : Bool :=
  let mc := coapSender_run_count rate duration concurrency message_count
  decide (0 < duration) && (decide (rate = 0) || decide (mc = 0))

/-- Outcome of one CoAP request awaited with the 2 s timeout (coap_sender.py
lines 70-79). -/
inductive CoapSendOutcome
  | delivered
  | timed_out
  | failed

/-- The shared sender fields touched by one send attempt, plus the per-worker
pacing sequence number. -/
structure SenderLoopState where
  sent_messages : ℕ
  timestamps : List ℤ
  local_seq : ℕ

/-- One iteration body of CoapSender.send_messages under the lock
(coap_sender.py lines 62-81): the counter and timestamp are updated before the
transmit; a timeout or error reaches continue, skipping only the local_seq
increment. -/
def coapSender_send_attempt (s : SenderLoopState) (ts : ℤ) (o : CoapSendOutcome) :
    SenderLoopState :=
  let s1 : SenderLoopState :=
    { s with sent_messages := s.sent_messages + 1, timestamps := s.timestamps ++ [ts] }
  match o with
  | CoapSendOutcome.delivered => { s1 with local_seq := s1.local_seq + 1 }
  | CoapSendOutcome.timed_out => s1
  | CoapSendOutcome.failed => s1

/-- One iteration body of MqttSender.send_messages under the lock
(mqtt_sender.py lines 63-77): the counter and timestamp are updated before the
publish, which has no failure branch at all. -/
def mqttSender_send_attempt (s : SenderLoopState) (ts : ℤ) : SenderLoopState :=
  { s with
    sent_messages := s.sent_messages + 1
    timestamps := s.timestamps ++ [ts]
    local_seq := s.local_seq + 1 }

/-- Outcome of one HTTP POST (http/http_test_sender.py lines 64-72). -/
inductive HttpSendOutcome
  | status_200
  | status_error
  | exception_raised

/-- AsyncHttpSender.send_message (http/http_test_sender.py lines 55-72):
returns untouched state when not running; counts and timestamps only on an
HTTP 200 response; other statuses and exceptions leave the state unchanged. -/
def httpSender_send_message (running : Bool) (s : SenderLoopState) (ts : ℤ)
    (o : HttpSendOutcome) : SenderLoopState :=
  if running then
    match o with
    | HttpSendOutcome.status_200 =>
      { s with sent_messages := s.sent_messages + 1, timestamps := s.timestamps ++ [ts] }
    | HttpSendOutcome.status_error => s
    | HttpSendOutcome.exception_raised => s
  else s

/-- MqttSender.send_messages pacing deadline (mqtt_sender.py line 86):
expected_time = thread_start_time + local_seq / rate. -/
def mqtt_expected_time (thread_start_time : ℚ) (local_seq : ℕ) (rate : ℚ) : ℚ :=
  thread_start_time + (local_seq : ℚ) / rate

/-- MqttSender.send_messages per-iteration sleep (mqtt_sender.py lines 84-92):
max(0, expected_time - current_time) when rate > 0, else the fixed 0.001 s
yield. -/
def mqtt_pace_sleep (rate thread_start_time : ℚ) (local_seq : ℕ) (current_time : ℚ) : ℚ :=
  if 0 < rate then max 0 (mqtt_expected_time thread_start_time local_seq rate - current_time)
  else 1 / 1000

/-- CoapSender.send_messages pacing deadline (coap_sender.py line 89). -/
def coap_expected_time (task_start_time : ℚ) (local_seq : ℕ) (rate : ℚ) : ℚ :=
  task_start_time + (local_seq : ℚ) / rate

/-- CoapSender.send_messages per-iteration sleep (coap_sender.py lines
88-95). -/
def coap_pace_sleep (rate task_start_time : ℚ) (local_seq : ℕ) (current_time : ℚ) : ℚ :=
  if 0 < rate then max 0 (coap_expected_time task_start_time local_seq rate - current_time)
  else 1 / 1000

/-- Observable MqttSender state along the stop path (mqtt_sender.py lines
96-103): the running flag, the number of reports written by generate_report,
and the number of sys.exit calls. -/
structure MqttSenderEngine where
  running : Bool
  reports_written : ℕ
  exit_calls : ℕ

/-- MqttSender.stop (mqtt_sender.py lines 96-103): returns immediately when
already stopped; otherwise clears the flag, writes the report, and exits. -/
def mqttSender_stop (s : MqttSenderEngine) : MqttSenderEngine :=
  if s.running then
    { running := false, reports_written := s.reports_written + 1, exit_calls := s.exit_calls + 1 }
  else s

/-- Observable CoapReceiver state along the shutdown path (coap_receiver.py
lines 45-59): the running flag, reports written, whether the CoAP context is
still present, and how many context shutdowns were performed. -/
structure CoapReceiverEngine where
  running : Bool
  reports_written : ℕ
  context_present : Bool
  context_shutdowns : ℕ

/-- CoapReceiver.shutdown_server (coap_receiver.py lines 45-59): returns
immediately when already stopped; otherwise clears the flag, writes the
report, and shuts the context down when present, setting it to None. -/
def coapReceiver_shutdown_server (t : CoapReceiverEngine) : CoapReceiverEngine :=
  if t.running then
    { running := false
      reports_written := t.reports_written + 1
      context_present := false
      context_shutdowns := if t.context_present then t.context_shutdowns + 1 else t.context_shutdowns }
  else t

/-- CoAP response codes distinguished by CoapReceiver.render_post. -/
inductive CoapCode
  | content
  | service_unavailable

/-- The receiver fields touched by one inbound message. -/
structure ReceiverLoopState where
  running : Bool
  received_messages : ℕ
  timestamps : List ℤ
  shutdown_signaled : Bool

/-- CoapReceiver.render_post (coap_receiver.py lines 24-40): answers
SERVICE_UNAVAILABLE when not running; otherwise counts, timestamps, signals
shutdown at the count threshold, and answers CONTENT. -/
def coapReceiver_render_post (message_count : ℕ) (s : ReceiverLoopState) (ts : ℤ) :
    ReceiverLoopState × CoapCode :=
  if s.running then
    let s1 : ReceiverLoopState :=
      { s with received_messages := s.received_messages + 1, timestamps := s.timestamps ++ [ts] }
    if 0 < message_count ∧ message_count ≤ s1.received_messages then
      ({ s1 with shutdown_signaled := true }, CoapCode.content)
    else (s1, CoapCode.content)
  else (s, CoapCode.service_unavailable)

/-- MqttReceiver.on_message (mqtt_receiver.py lines 29-43): returns early when
not running; otherwise counts, timestamps, and signals shutdown at the count
threshold. -/
def mqttReceiver_on_message (message_count : ℕ) (s : ReceiverLoopState) (ts : ℤ) :
    ReceiverLoopState :=
  if s.running then
    let s1 : ReceiverLoopState :=
      { s with received_messages := s.received_messages + 1, timestamps := s.timestamps ++ [ts] }
    if 0 < message_count ∧ message_count ≤ s1.received_messages then
      { s1 with shutdown_signaled := true }
    else s1
  else s

/-- AsyncHttpReceiver.handle_message (http/http_test_receiver.py lines 24-39):
no run-state guard; every delivered request is counted, timestamped, and
answered with a 200 json response (modelled as the Bool true). -/
def httpReceiver_handle_message (message_count : ℕ) (s : ReceiverLoopState) (ts : ℤ) :
    ReceiverLoopState × Bool :=
  let s1 : ReceiverLoopState :=
    { s with received_messages := s.received_messages + 1, timestamps := s.timestamps ++ [ts] }
  if 0 < message_count ∧ message_count ≤ s1.received_messages then
    ({ s1 with shutdown_signaled := true }, true)
  else (s1, true)

/-- The side-effecting steps of the receivers shutdown paths, in program
order. -/
inductive ShutdownStep
  | loop_stop
  | disconnect_client
  | report_generation
  | context_shutdown
  | site_stop
  | runner_cleanup

/-- MqttReceiver.stop (mqtt_receiver.py lines 49-58): loop_stop and disconnect
come before generate_report. -/
def mqttReceiver_stop_steps : List ShutdownStep :=
  [ShutdownStep.loop_stop, ShutdownStep.disconnect_client, ShutdownStep.report_generation]

/-- CoapReceiver.shutdown_server step order (coap_receiver.py lines 45-59):
generate_report, then context.shutdown. -/
def coapReceiver_shutdown_steps : List ShutdownStep :=
  [ShutdownStep.report_generation, ShutdownStep.context_shutdown]

/-- AsyncHttpReceiver.shutdown_server step order (http/http_test_receiver.py
lines 44-59): generate_report, then site.stop and app_runner.cleanup. -/
def httpReceiver_shutdown_steps : List ShutdownStep :=
  [ShutdownStep.report_generation, ShutdownStep.site_stop, ShutdownStep.runner_cleanup]

/-- A step is protocol-resource teardown (everything except report
generation). -/
def isTeardown : ShutdownStep → Bool
  | ShutdownStep.report_generation => false
  | _ => true

/-- True when report generation occurs before any teardown step of the list
(vacuously true when no teardown occurs at all). -/
def reportBeforeTeardown : List ShutdownStep → Bool
  | [] => true
  | ShutdownStep.report_generation :: _ => true
  | e :: rest => if isTeardown e then false else reportBeforeTeardown rest

/-- Helper: a filterMap whose function is total on the list collapses to a
map. -/
theorem filterMap_ite_eq_map {α β : Type} (g : α → β) (p : α → Prop) [DecidablePred p]
    (l : List α) (h : ∀ a ∈ l, p a) :
    l.filterMap (fun a => if p a then some (g a) else none) = l.map g := by
  induction l with
  | nil => rfl
  | cons x xs ih =>
    have hx : p x := h x (List.mem_cons_self x xs)
    simp [List.filterMap_cons, hx, ih (fun a ha => h a (List.mem_cons_of_mem x ha))]

/-- Helper: getD over a mapped range evaluates the function. -/
theorem getD_map_range (n : ℕ) (g : ℕ → ℚ) (i : ℕ) (h : i < n) :
    ((List.range n).map g).getD i 0 = g i := by
  rw [List.getD_eq_getElem _ _ (by simpa using h)]
  rw [List.getElem_map, List.getElem_range]

/-- Helper: under the gate of the latency loop, the series is the positional
pairing map over the whole index range. -/
theorem latencySeries_eq_map (sd : SenderData) (rd : ReceiverData)
    (h1 : 0 < rd.total_received) (h2 : rd.total_received ≤ sd.timestamps.length) :
    latencySeries sd rd =
      (List.range (min rd.total_received rd.timestamps.length)).map (fun i =>
        (((rd.timestamps.getD i 0 : ℤ) : ℚ) - ((sd.timestamps.getD i 0 : ℤ) : ℚ)) / 1000000) := by
  unfold latencySeries
  rw [if_pos ⟨h1, h2⟩]
  exact filterMap_ite_eq_map _ _ _ (fun i hi => by
    have hm : i < min rd.total_received rd.timestamps.length := List.mem_range.mp hi
    omega)

/-- Helper: a sender timestamp list shorter than total_received empties the
latency series. -/
theorem latencySeries_eq_nil_of_short (sd : SenderData) (rd : ReceiverData)
    (h : sd.timestamps.length < rd.total_received) :
    latencySeries sd rd = [] := by
  unfold latencySeries
  exact if_neg (by rintro ⟨h1, h2⟩; omega)

/-- Claim C1 is false as stated: with sender report (total_sent 1, timestamps
[10]) and receiver report (total_received 2, timestamps [100, 200]) the
aggregator latency series is empty, although min(total_received,
len(receiver_timestamps)) = 2; the positional pairing only happens when the
sender list holds at least total_received entries. -/
theorem C1_counterexample :
    ¬ ((calculate_metrics ⟨1, [10]⟩ ⟨2, [100, 200]⟩).latencies_ms.length =
        min 2 ([(100 : ℤ), 200].length)) := by
  decide

/-- Claim C1, amended: provided total_received > 0 and the sender report holds
at least total_received timestamps, the latency series has exactly one entry
per index i in [0, min(total_received, len(receiver_timestamps))), and entry i
equals (receiver_timestamps[i] - sender_timestamps[i]) / 1e6 milliseconds;
otherwise the series is empty. -/
theorem C1_latency_pairing (sd : SenderData) (rd : ReceiverData)
    (h1 : 0 < rd.total_received) (h2 : rd.total_received ≤ sd.timestamps.length) :
    (calculate_metrics sd rd).latencies_ms.length =
      min rd.total_received rd.timestamps.length ∧
    ∀ i, i < min rd.total_received rd.timestamps.length →
      (calculate_metrics sd rd).latencies_ms.getD i 0 =
        (((rd.timestamps.getD i 0 : ℤ) : ℚ) - ((sd.timestamps.getD i 0 : ℤ) : ℚ)) / 1000000 := by
  have hfield : (calculate_metrics sd rd).latencies_ms = latencySeries sd rd := rfl
  rw [hfield, latencySeries_eq_map sd rd h1 h2]
  exact ⟨by simp, fun i hi => getD_map_range _ _ _ hi⟩

/-- Witness for C1_latency_pairing at sender (2, [10, 30]) and receiver
(2, [100, 200]). -/
theorem C1_latency_pairing_witness :
    (calculate_metrics ⟨2, [10, 30]⟩ ⟨2, [100, 200]⟩).latencies_ms.length =
      min 2 ([(100 : ℤ), 200].length) ∧
    ∀ i, i < min 2 ([(100 : ℤ), 200].length) →
      (calculate_metrics ⟨2, [10, 30]⟩ ⟨2, [100, 200]⟩).latencies_ms.getD i 0 =
        ((([(100 : ℤ), 200].getD i 0 : ℤ) : ℚ) - (([(10 : ℤ), 30].getD i 0 : ℤ) : ℚ)) / 1000000 :=
  C1_latency_pairing ⟨2, [10, 30]⟩ ⟨2, [100, 200]⟩ (by decide) (by decide)

/-- Claim C2 is false as stated: the HTTP sender derives int(rate * duration)
without the concurrency factor; at rate 1, duration 1, concurrency 2 the claim
demands int(1 * 1 * 2) = 2 but AsyncHttpSender.run sets 1. -/
theorem C2_counterexample :
    ¬ (httpSender_run_count 1 1 0 = pyInt ((1 : ℚ) * ((1 : ℕ) : ℚ) * ((2 : ℕ) : ℚ))) := by
  simp [httpSender_run_count, pyInt]

/-- Claim C2, amended: when rate > 0 and duration > 0 the MQTT and CoAP
senders override any configured count with int(rate * duration * concurrency),
while the HTTP sender overrides it with int(rate * duration), ignoring
concurrency. -/
theorem C2_derived_count (rate : ℚ) (duration concurrency : ℕ) (count : ℤ)
    (h1 : 0 < rate) (h2 : 0 < duration) :
    mqttSender_run_count rate duration concurrency count
        = pyInt (rate * (duration : ℚ) * (concurrency : ℚ)) ∧
    coapSender_run_count rate duration concurrency count
        = pyInt (rate * (duration : ℚ) * (concurrency : ℚ)) ∧
    httpSender_run_count rate duration count = pyInt (rate * (duration : ℚ)) := by
  refine ⟨?_, ?_, ?_⟩ <;>
    simp [mqttSender_run_count, coapSender_run_count, httpSender_run_count, h1, h2]

/-- Witness for C2_derived_count at rate 2, duration 3, concurrency 4. -/
theorem C2_derived_count_witness :
    mqttSender_run_count 2 3 4 0 = pyInt ((2 : ℚ) * ((3 : ℕ) : ℚ) * ((4 : ℕ) : ℚ)) ∧
    coapSender_run_count 2 3 4 0 = pyInt ((2 : ℚ) * ((3 : ℕ) : ℚ) * ((4 : ℕ) : ℚ)) ∧
    httpSender_run_count 2 3 0 = pyInt ((2 : ℚ) * ((3 : ℕ) : ℚ)) :=
  C2_derived_count 2 3 4 0 (by norm_num) (by norm_num)

/-- Claim C3 is false as stated: a CoAP send attempt that times out still
increments sent_messages and appends its timestamp, because both happen before
the transmit. -/
theorem C3_counterexample :
    ¬ ((coapSender_send_attempt ⟨0, [], 0⟩ 5 CoapSendOutcome.timed_out).sent_messages = 0 ∧
       (coapSender_send_attempt ⟨0, [], 0⟩ 5 CoapSendOutcome.timed_out).timestamps = []) := by
  decide

/-- Claim C3, amended: the HTTP sender increments sent_messages and appends a
timestamp only on an HTTP 200 response, leaving the state unchanged on an
error status or exception; the MQTT and CoAP senders increment the counter and
append the timestamp before the transmit, so timed-out or failed attempts are
still counted; no sender retries, and a failed CoAP attempt skips only the
pacing sequence increment. -/
theorem C3_send_accounting (s : SenderLoopState) (ts : ℤ) (o : CoapSendOutcome) :
    (coapSender_send_attempt s ts o).sent_messages = s.sent_messages + 1 ∧
    (coapSender_send_attempt s ts o).timestamps = s.timestamps ++ [ts] ∧
    (coapSender_send_attempt s ts CoapSendOutcome.timed_out).local_seq = s.local_seq ∧
    (coapSender_send_attempt s ts CoapSendOutcome.failed).local_seq = s.local_seq ∧
    (coapSender_send_attempt s ts CoapSendOutcome.delivered).local_seq = s.local_seq + 1 ∧
    (mqttSender_send_attempt s ts).sent_messages = s.sent_messages + 1 ∧
    (mqttSender_send_attempt s ts).timestamps = s.timestamps ++ [ts] ∧
    (httpSender_send_message true s ts HttpSendOutcome.status_200).sent_messages
        = s.sent_messages + 1 ∧
    (httpSender_send_message true s ts HttpSendOutcome.status_200).timestamps
        = s.timestamps ++ [ts] ∧
    httpSender_send_message true s ts HttpSendOutcome.status_error = s ∧
    httpSender_send_message true s ts HttpSendOutcome.exception_raised = s := by
  cases o <;>
    simp [coapSender_send_attempt, mqttSender_send_attempt, httpSender_send_message]

/-- Helper: MqttSender.stop on a stopped engine is the identity. -/
theorem mqttSender_stop_fixed (s : MqttSenderEngine) (h : s.running = false) :
    mqttSender_stop s = s := by
  simp [mqttSender_stop, h]

/-- Helper: CoapReceiver.shutdown_server on a stopped engine is the
identity. -/
theorem coapReceiver_shutdown_fixed (t : CoapReceiverEngine) (h : t.running = false) :
    coapReceiver_shutdown_server t = t := by
  simp [coapReceiver_shutdown_server, h]

/-- Claim C4: stop and shutdown_server are idempotent. For every N at least 1,
calling them N times from a Running state equals calling them once; that one
call writes exactly one report and is the only call that leaves Running. -/
theorem C4_stop_idempotent (s : MqttSenderEngine) (t : CoapReceiverEngine) (n : ℕ)
    (hn : 1 ≤ n) (hs : s.running = true) (ht : t.running = true) :
    mqttSender_stop^[n] s = mqttSender_stop s ∧
    (mqttSender_stop s).reports_written = s.reports_written + 1 ∧
    (mqttSender_stop s).running = false ∧
    coapReceiver_shutdown_server^[n] t = coapReceiver_shutdown_server t ∧
    (coapReceiver_shutdown_server t).reports_written = t.reports_written + 1 ∧
    (coapReceiver_shutdown_server t).running = false := by
  obtain ⟨m, rfl⟩ : ∃ m, n = m + 1 := ⟨n - 1, by omega⟩
  have hs1 : (mqttSender_stop s).running = false := by simp [mqttSender_stop, hs]
  have ht1 : (coapReceiver_shutdown_server t).running = false := by
    simp [coapReceiver_shutdown_server, ht]
  refine ⟨?_, by simp [mqttSender_stop, hs], hs1, ?_,
    by simp [coapReceiver_shutdown_server, ht], ht1⟩
  · rw [Function.iterate_succ_apply]
    exact Function.iterate_fixed (mqttSender_stop_fixed _ hs1) m
  · rw [Function.iterate_succ_apply]
    exact Function.iterate_fixed (coapReceiver_shutdown_fixed _ ht1) m

/-- Witness for C4_stop_idempotent with two calls on fresh engines. -/
theorem C4_stop_idempotent_witness :
    mqttSender_stop^[2] ⟨true, 0, 0⟩ = mqttSender_stop ⟨true, 0, 0⟩ ∧
    (mqttSender_stop ⟨true, 0, 0⟩).reports_written = 0 + 1 ∧
    (mqttSender_stop ⟨true, 0, 0⟩).running = false ∧
    coapReceiver_shutdown_server^[2] ⟨true, 0, true, 0⟩
        = coapReceiver_shutdown_server ⟨true, 0, true, 0⟩ ∧
    (coapReceiver_shutdown_server ⟨true, 0, true, 0⟩).reports_written = 0 + 1 ∧
    (coapReceiver_shutdown_server ⟨true, 0, true, 0⟩).running = false :=
  C4_stop_idempotent ⟨true, 0, 0⟩ ⟨true, 0, true, 0⟩ 2 (by norm_num) rfl rfl

/-- Claim C5: for rate > 0 the pacing deadline of the n-th message is
reference_time + n / rate and the worker sleeps max(0, deadline - now); for
rate == 0 both the MQTT and the CoAP sender sleep the fixed 1 ms yield. -/
theorem C5_pacer (rate reference_time : ℚ) (n : ℕ) (now : ℚ) :
    (0 < rate →
      mqtt_expected_time reference_time n rate = reference_time + (n : ℚ) / rate ∧
      coap_expected_time reference_time n rate = reference_time + (n : ℚ) / rate ∧
      mqtt_pace_sleep rate reference_time n now
          = max 0 (reference_time + (n : ℚ) / rate - now) ∧
      coap_pace_sleep rate reference_time n now
          = max 0 (reference_time + (n : ℚ) / rate - now)) ∧
    (rate = 0 →
      mqtt_pace_sleep rate reference_time n now = 1 / 1000 ∧
      coap_pace_sleep rate reference_time n now = 1 / 1000) := by
  constructor
  · intro h
    exact ⟨rfl, rfl, by simp [mqtt_pace_sleep, mqtt_expected_time, h],
      by simp [coap_pace_sleep, coap_expected_time, h]⟩
  · intro h
    subst h
    simp [mqtt_pace_sleep, coap_pace_sleep]

/-- Witness for C5_pacer at rate 2 and at rate 0. -/
theorem C5_pacer_witness :
    (mqtt_expected_time 0 1 2 = 0 + ((1 : ℕ) : ℚ) / 2 ∧
     coap_expected_time 0 1 2 = 0 + ((1 : ℕ) : ℚ) / 2 ∧
     mqtt_pace_sleep 2 0 1 0 = max 0 (0 + ((1 : ℕ) : ℚ) / 2 - 0) ∧
     coap_pace_sleep 2 0 1 0 = max 0 (0 + ((1 : ℕ) : ℚ) / 2 - 0)) ∧
    (mqtt_pace_sleep 0 0 1 0 = 1 / 1000 ∧ coap_pace_sleep 0 0 1 0 = 1 / 1000) :=
  ⟨(C5_pacer 2 0 1 0).1 (by norm_num), (C5_pacer 0 0 1 0).2 rfl⟩

/-- Claim C6 is false as stated: the HTTP receiver handler has no run-state
guard, so with running = false an incoming message is still counted. -/
theorem C6_counterexample :
    ¬ ((httpReceiver_handle_message 0 ⟨false, 0, [], false⟩ 7).1.received_messages = 0 ∧
       (httpReceiver_handle_message 0 ⟨false, 0, [], false⟩ 7).1.timestamps = []) := by
  decide

/-- Claim C6, amended: once not Running, the CoAP receiver answers
SERVICE_UNAVAILABLE and the MQTT receiver returns early, neither counting nor
timestamping the message; the HTTP receiver has no such guard and still counts
and timestamps every delivered message regardless of run state. -/
theorem C6_reject_after_stop (message_count : ℕ) (s : ReceiverLoopState) (ts : ℤ)
    (h : s.running = false) :
    coapReceiver_render_post message_count s ts = (s, CoapCode.service_unavailable) ∧
    mqttReceiver_on_message message_count s ts = s ∧
    (httpReceiver_handle_message message_count s ts).1.received_messages
        = s.received_messages + 1 ∧
    (httpReceiver_handle_message message_count s ts).1.timestamps = s.timestamps ++ [ts] := by
  refine ⟨by simp [coapReceiver_render_post, h], by simp [mqttReceiver_on_message, h], ?_, ?_⟩
  · simp only [httpReceiver_handle_message]
    split <;> simp
  · simp only [httpReceiver_handle_message]
    split <;> simp

/-- Witness for C6_reject_after_stop on a stopped receiver. -/
theorem C6_reject_after_stop_witness :
    coapReceiver_render_post 0 ⟨false, 0, [], false⟩ 7
        = (⟨false, 0, [], false⟩, CoapCode.service_unavailable) ∧
    mqttReceiver_on_message 0 ⟨false, 0, [], false⟩ 7 = ⟨false, 0, [], false⟩ ∧
    (httpReceiver_handle_message 0 ⟨false, 0, [], false⟩ 7).1.received_messages = 0 + 1 ∧
    (httpReceiver_handle_message 0 ⟨false, 0, [], false⟩ 7).1.timestamps = [] ++ [7] :=
  C6_reject_after_stop 0 ⟨false, 0, [], false⟩ 7 rfl

/-- Claim C7 is false as stated: MqttReceiver.stop stops the network loop and
disconnects from the broker before generating the report. -/
theorem C7_counterexample :
    ¬ (reportBeforeTeardown mqttReceiver_stop_steps = true) := by
  decide

/-- Claim C7, amended: report generation precedes every teardown step in the
CoAP and HTTP receiver shutdown paths, but the MQTT receiver stop method
performs loop_stop and disconnect before generate_report. -/
theorem C7_shutdown_order :
    reportBeforeTeardown coapReceiver_shutdown_steps = true ∧
    reportBeforeTeardown httpReceiver_shutdown_steps = true ∧
    mqttReceiver_stop_steps
        = [ShutdownStep.loop_stop, ShutdownStep.disconnect_client,
           ShutdownStep.report_generation] :=
  ⟨rfl, rfl, rfl⟩

/-- Claim C8 is false as stated: at rate 1, duration 1, concurrency 1 the
derived count is 1 and rate is nonzero, so MqttSender.run arms no duration
watchdog at all. -/
theorem C8_counterexample :
    ¬ (mqttSender_run_watchdog 1 1 1 0 = true) := by
  simp [mqttSender_run_watchdog, mqttSender_run_count, pyInt]

/-- Claim C8, amended: the duration watchdog is armed iff duration > 0 and
either rate == 0 or the effective message_count == 0; in particular, when
rate > 0 and duration > 0 yield a nonzero derived count, no duration watchdog
runs, and a stalled count path is not independently interrupted. -/
theorem C8_watchdog_condition (rate : ℚ) (duration concurrency : ℕ) (count : ℤ) :
    (mqttSender_run_watchdog rate duration concurrency count = true ↔
      (0 < duration ∧
        (rate = 0 ∨ mqttSender_run_count rate duration concurrency count = 0))) ∧
    (coapSender_run_watchdog rate duration concurrency count = true ↔
      (0 < duration ∧
        (rate = 0 ∨ coapSender_run_count rate duration concurrency count = 0))) := by
  constructor <;> simp [mqttSender_run_watchdog, coapSender_run_watchdog]

/-- Claim C9: every division in report generation and aggregation is guarded.
A report with fewer than two timestamps yields avg_rate_per_sec 0 and an
aggregator transfer speed of 0, total_sent 0 yields packet_loss_percent 0, and
an empty latency series yields mean, min, max and median all 0 and a latency
list of length 0. -/
theorem C9_division_guards (total received : ℕ) (ts : List ℤ)
    (sd : SenderData) (rd : ReceiverData)
    (h1 : ts.length < 2) (h2 : (calculate_metrics sd rd).latencies_ms = []) :
    generate_report_rate total ts = 0 ∧
    packet_loss 0 received = 0 ∧
    transfer_speed total ts = 0 ∧
    (calculate_metrics sd rd).avg_latency_ms = 0 ∧
    (calculate_metrics sd rd).min_latency_ms = 0 ∧
    (calculate_metrics sd rd).max_latency_ms = 0 ∧
    (calculate_metrics sd rd).median_latency_ms = 0 ∧
    (calculate_metrics sd rd).latencies_ms.length = 0 := by
  have hts : ¬ (2 ≤ ts.length) := by omega
  have hlat : latencySeries sd rd = [] := h2
  refine ⟨by simp [generate_report_rate, hts], by simp [packet_loss],
    by simp [transfer_speed, hts], ?_, ?_, ?_, ?_, ?_⟩
  · show pyMean (latencySeries sd rd) = 0
    rw [hlat]
    rfl
  · show pyMin (latencySeries sd rd) = 0
    rw [hlat]
    rfl
  · show pyMax (latencySeries sd rd) = 0
    rw [hlat]
    rfl
  · show pyMedian (latencySeries sd rd) = 0
    rw [hlat]
    rfl
  · show (latencySeries sd rd).length = 0
    rw [hlat]
    rfl

/-- Witness for C9_division_guards with a one-element timestamp list and empty
reports. -/
theorem C9_division_guards_witness :
    generate_report_rate 5 [42] = 0 ∧
    packet_loss 0 3 = 0 ∧
    transfer_speed 5 [42] = 0 ∧
    (calculate_metrics ⟨0, []⟩ ⟨0, []⟩).avg_latency_ms = 0 ∧
    (calculate_metrics ⟨0, []⟩ ⟨0, []⟩).min_latency_ms = 0 ∧
    (calculate_metrics ⟨0, []⟩ ⟨0, []⟩).max_latency_ms = 0 ∧
    (calculate_metrics ⟨0, []⟩ ⟨0, []⟩).median_latency_ms = 0 ∧
    (calculate_metrics ⟨0, []⟩ ⟨0, []⟩).latencies_ms.length = 0 :=
  C9_division_guards 5 3 [42] ⟨0, []⟩ ⟨0, []⟩ (by decide) (by decide)

/-- Claim C10: the aggregator latency series is non-empty only when
total_received > 0 and the sender report holds at least total_received
timestamps; whenever the sender timestamp list is shorter than total_received
the series is empty and mean, min, max and median are all reported as 0. -/
theorem C10_latency_guard (sd : SenderData) (rd : ReceiverData) :
    ((calculate_metrics sd rd).latencies_ms ≠ [] →
      0 < rd.total_received ∧ rd.total_received ≤ sd.timestamps.length) ∧
    (sd.timestamps.length < rd.total_received →
      (calculate_metrics sd rd).latencies_ms = [] ∧
      (calculate_metrics sd rd).avg_latency_ms = 0 ∧
      (calculate_metrics sd rd).min_latency_ms = 0 ∧
      (calculate_metrics sd rd).max_latency_ms = 0 ∧
      (calculate_metrics sd rd).median_latency_ms = 0) := by
  constructor
  · intro hne
    by_contra hc
    refine hne ?_
    show latencySeries sd rd = []
    unfold latencySeries
    exact if_neg hc
  · intro h
    have hnil : latencySeries sd rd = [] := latencySeries_eq_nil_of_short sd rd h
    refine ⟨hnil, ?_, ?_, ?_, ?_⟩
    · show pyMean (latencySeries sd rd) = 0
      rw [hnil]
      rfl
    · show pyMin (latencySeries sd rd) = 0
      rw [hnil]
      rfl
    · show pyMax (latencySeries sd rd) = 0
      rw [hnil]
      rfl
    · show pyMedian (latencySeries sd rd) = 0
      rw [hnil]
      rfl

/-- Witness for C10_latency_guard: sender report with one timestamp against a
receiver report claiming two received messages. -/
theorem C10_latency_guard_witness :
    (calculate_metrics ⟨1, [10]⟩ ⟨2, [100, 200]⟩).latencies_ms = [] ∧
    (calculate_metrics ⟨1, [10]⟩ ⟨2, [100, 200]⟩).avg_latency_ms = 0 ∧
    (calculate_metrics ⟨1, [10]⟩ ⟨2, [100, 200]⟩).min_latency_ms = 0 ∧
    (calculate_metrics ⟨1, [10]⟩ ⟨2, [100, 200]⟩).max_latency_ms = 0 ∧
    (calculate_metrics ⟨1, [10]⟩ ⟨2, [100, 200]⟩).median_latency_ms = 0 :=
  (C10_latency_guard ⟨1, [10]⟩ ⟨2, [100, 200]⟩).2 (by decide)
